import Mathlib

/- Verification of the Resilient Fetch and Metrics Aggregation Engine of the
   meta-ads-mcp server (src/unnamed/part_000).  The TypeScript source is shallowly
   embedded: machine numbers become Nat/Int/Rat, JS numbers that may be non-finite
   become `Option ℚ` (`none` standing for NaN or an infinity), promise rejection
   becomes `Except`, and the retry loop becomes fuel-indexed recursion in which the
   fuel equals the remaining loop iterations. -/

namespace MetaAds

/-- REQUEST_TIMEOUT_MS constant of the source. -/
def REQUEST_TIMEOUT_MS : Nat := 30000

/-- MAX_RETRIES constant of the source. -/
def MAX_RETRIES : Nat := 2

/-- RETRY_DELAY_MS constant of the source (the backoff sleeps are not modelled,
    only the attempt structure of the loop). -/
def RETRY_DELAY_MS : Nat := 1000

/-- The error envelope of a failed Meta Graph call, holding exactly the fields
    `graphRequest` reads from `json.error`. -/
structure GraphErrBody where
  message : String
  error_user_msg : Option String
  error_subcode : Option Int
deriving Repr, DecidableEq

/-- One parsed HTTP response body as `graphRequest` sees it after `res.json()`:
    an optional `error` envelope plus the raw JSON text used in the
    `HTTP <status>: <body>` fallback. -/
structure RespBody where
  err : Option GraphErrBody
  raw : String
deriving Repr, DecidableEq

/-- The outcome of one attempt of `fetchWithTimeout` followed by `res.json()`:
    a response with an HTTP status, an abort by the timeout controller
    (`DOMException` named AbortError), or any other thrown exception
    (connection reset, DNS failure, malformed JSON, ...). -/
inductive Attempt where
  | response (status : Nat) (body : RespBody)
  | abortError
  | networkError (msg : String)
deriving Repr, DecidableEq

/-- The `ApiError` class of the source: a message plus the `statusCode`
    (`0` for network-level failures, `408` for the synthetic timeout status). -/
structure ApiError where
  message : String
  statusCode : Nat
deriving Repr, DecidableEq

/-- The error kinds of the specification taxonomy. -/
inductive ErrKind where
  | client | server | network | timeout
deriving Repr, DecidableEq

/-- Modelled from the spec: the source `ApiError` carries no explicit kind field;
    the spec's section 7 taxonomy classifies a surfaced error by its status code
    (0 = network, the 408 sentinel = timeout, other 4xx = client, ≥ 500 = server). -/
def ApiError.kind (e : ApiError) : ErrKind :=
  if e.statusCode = 0 then .network
  else if e.statusCode = 408 then .timeout
  else if e.statusCode < 500 then .client
  else .server

/-- The `errDetail` string built by `graphRequest` for a non-ok response, with the
    JS truthiness tests on `error_user_msg` (empty string is falsy) and
    `error_subcode` (zero is falsy). -/
def errDetail (status : Nat) (body : RespBody) : String :=
  match body.err with
  | some e =>
      e.message
        ++ (match e.error_user_msg with
            | some m => if m = "" then "" else " | " ++ m
            | none => "")
        ++ (match e.error_subcode with
            | some c => if c = 0 then "" else " (subcode: " ++ toString c ++ ")"
            | none => "")
  | none => "HTTP " ++ toString status ++ ": " ++ body.raw

/-- The message of the timeout `ApiError` thrown on an AbortError. -/
def timeoutMsg : String := "Request timed out after " ++ toString REQUEST_TIMEOUT_MS ++ "ms"

/-- The `for (let attempt = 0; attempt <= retries; attempt++)` loop of
    `graphRequest`.  `att attempt` is the outcome of the attempt with that index;
    `fuel` counts the loop iterations still permitted (the loop runs while
    `attempt ≤ retries`, so it is entered with `fuel = retries + 1`).  The result
    pairs the returned payload or thrown `ApiError` with the number of attempts
    actually performed.  A 2xx response returns the body; a 4xx response throws at
    once; a 5xx (or other non-ok) response retries while attempts remain; an
    AbortError throws the synthetic 408 timeout error at once; any other
    exception retries while attempts remain and then throws with statusCode 0. -/
def graphRequestLoop (att : Nat → Attempt) (retries : Nat) :
    Nat → Nat → Except ApiError RespBody × Nat
  | 0, _ => (.error ⟨"Max retries exceeded", 0⟩, 0)
  | fuel + 1, attempt =>
    match att attempt with
    | .response status body =>
      if 200 ≤ status ∧ status ≤ 299 then
        (.ok body, 1)
      else if 400 ≤ status ∧ status < 500 then
        (.error ⟨errDetail status body, status⟩, 1)
      else if attempt < retries then
        let r := graphRequestLoop att retries fuel (attempt + 1)
        (r.1, r.2 + 1)
      else
        (.error ⟨errDetail status body, status⟩, 1)
    | .abortError => (.error ⟨timeoutMsg, 408⟩, 1)
    | .networkError msg =>
      if attempt < retries then
        let r := graphRequestLoop att retries fuel (attempt + 1)
        (r.1, r.2 + 1)
      else
        (.error ⟨"Network error: " ++ msg, 0⟩, 1)

/-- The `graphRequest` executor: run the attempt loop from attempt 0 with
    `retries + 1` iterations available, returning the result together with the
    number of attempts performed. -/
def graphRequest (att : Nat → Attempt) (retries : Nat) : Except ApiError RespBody × Nat :=
  graphRequestLoop att retries (retries + 1) 0

/-! ## JS number model and numeric string parsing -/

/-- A JS number as this pipeline can produce it: `some q` is the finite value `q`,
    `none` is a non-finite value (NaN or an infinity). -/
abbrev JsNum := Option ℚ

/-- Numeric value of a decimal digit character. -/
def digitVal (c : Char) : Nat := c.toNat - 48

/-- Split a character list into its longest prefix of decimal digits and the rest. -/
def takeDigits : List Char → List Char × List Char
  | [] => ([], [])
  | c :: rest =>
    if c.isDigit then
      let r := takeDigits rest
      (c :: r.1, r.2)
    else ([], c :: rest)

/-- The numeric value of a list of decimal digit characters, most significant first
    (the value a radix-10 positional parse produces). -/
def digitsToNat (l : List Char) : Nat := l.foldl (fun a c => a * 10 + digitVal c) 0

/-- Parse an optional leading sign; returns (isNegative, rest). -/
def parseSign : List Char → Bool × List Char
  | '-' :: rest => (true, rest)
  | '+' :: rest => (false, rest)
  | cs => (false, cs)

/-- Integer power of ten over ℚ, written out to stay plainly executable. -/
def pow10 (e : Int) : ℚ :=
  if 0 ≤ e then ((10 : ℚ) ^ e.toNat) else 1 / ((10 : ℚ) ^ (-e).toNat)

/-- The JS `parseFloat` on a whitespace-trimmed character list: optional sign,
    integer digits, optional fraction, optional exponent; the longest numeric
    prefix wins and trailing garbage is ignored.  `none` when no digits at all
    were consumed (JS yields NaN there). -/
def parseFloatL (cs : List Char) : Option ℚ :=
  let s1 := parseSign cs
  let ipr := takeDigits s1.2
  let fpr := match ipr.2 with
    | '.' :: rest => takeDigits rest
    | other => ([], other)
  if ipr.1 = [] ∧ fpr.1 = [] then none
  else
    let mant : ℚ := (digitsToNat ipr.1 : ℚ) + (digitsToNat fpr.1 : ℚ) / (10 : ℚ) ^ fpr.1.length
    let e : Int := match fpr.2 with
      | c :: rest =>
        if c = 'e' ∨ c = 'E' then
          let es := parseSign rest
          let ed := takeDigits es.2
          if ed.1 = [] then 0
          else if es.1 then -(digitsToNat ed.1 : Int) else (digitsToNat ed.1 : Int)
        else 0
      | [] => 0
    let v := mant * pow10 e
    some (if s1.1 then -v else v)

/-- The JS `parseInt(s, 10)` on a whitespace-trimmed character list: optional sign
    then leading decimal digits; `none` (NaN) when there is no digit. -/
def parseIntL (cs : List Char) : Option ℤ :=
  let s1 := parseSign cs
  let ds := takeDigits s1.2
  if ds.1 = [] then none
  else some (if s1.1 then -(digitsToNat ds.1 : ℤ) else (digitsToNat ds.1 : ℤ))

/-- The JS `parseFloat(s)`: skip leading whitespace, then parse a float prefix. -/
def parseFloat (s : String) : Option ℚ := parseFloatL (s.data.dropWhile Char.isWhitespace)

/-- The JS `parseInt(s, 10)`: skip leading whitespace, then parse an integer prefix. -/
def parseInt10 (s : String) : Option ℤ := parseIntL (s.data.dropWhile Char.isWhitespace)

/-- The JS `String(x || '0')` for a field that is either absent (undefined) or a string:
    undefined and the empty string are falsy and give "0". -/
def jsOrZero : Option String → String
  | none => "0"
  | some s => if s = "" then "0" else s

/-- The JS `String(x || '')` for an optional string field. -/
def jsOrEmpty : Option String → String
  | none => ""
  | some s => s

/-- The JS `Math.round`: round half toward positive infinity. -/
def jsRound (q : ℚ) : ℤ := ⌊q + 1 / 2⌋

/-- The 2-decimal rounding `Math.round(q * 100) / 100` of the source. -/
def round2 (q : ℚ) : ℚ := (jsRound (q * 100) : ℚ) / 100

/-- The 2-decimal rounding lifted to JS numbers; NaN and infinities stay non-finite
    (`Math.round` maps them to themselves). -/
def round2O : JsNum → JsNum := Option.map round2

/-- The JS test `x > 0`: false for NaN and for non-positive values. -/
def jsGtZero : JsNum → Bool
  | some q => decide (0 < q)
  | none => false

/-- JS division on possibly-non-finite numbers.  Division by zero or by a
    non-finite value yields a non-finite result (Infinity or NaN), as does a
    non-finite numerator. -/
def jsDiv : JsNum → JsNum → JsNum
  | some a, some b => if b = 0 then none else some (a / b)
  | _, _ => none

/-- The JS `(x as number) || 0`, here `x.getD 0`: NaN (and undefined) become 0. -/
def jsNumOrZero (x : JsNum) : ℚ := x.getD 0

/-! ## Metric rows and the normalizer -/

/-- One entry of an `actions` / `action_values` style list. -/
structure ActionEntry where
  action_type : Option String
  value : Option String
deriving Repr, DecidableEq

/-- One raw insights row, holding exactly the fields the reporting helpers read.
    Numeric fields arrive as strings (or are absent); the four action-list fields
    are absent or lists. -/
structure MetricRow where
  spend : Option String
  impressions : Option String
  clicks : Option String
  reach : Option String
  ctr : Option String
  cpc : Option String
  cpm : Option String
  frequency : Option String
  unique_clicks : Option String
  actions : Option (List ActionEntry)
  action_values : Option (List ActionEntry)
  cost_per_action_type : Option (List ActionEntry)
  conversions : Option (List ActionEntry)
  campaign_id : Option String
  campaign_name : Option String
  date_start : Option String
deriving Repr, DecidableEq

/-- The all-absent row, base for building concrete rows. -/
def emptyRow : MetricRow :=
  ⟨none, none, none, none, none, none, none, none, none,
   none, none, none, none, none, none, none⟩

/-- The `getActionValue(actions, actionType)` of the source: 0 when the list is absent or the type
    is not found, else `parseFloat(String(found.value || '0'))`. -/
def getActionValue (actions : Option (List ActionEntry)) (actionType : String) : JsNum :=
  match actions with
  | none => some 0
  | some l =>
    match l.find? (fun a => a.action_type == some actionType) with
    | some a => parseFloat (jsOrZero a.value)
    | none => some 0

/-- The normalized metric bundle `calcDerivedMetrics` returns.  Finite reals are
    `some q`; `none` records that the JS computation produced NaN or an infinity. -/
structure DerivedMetrics where
  spend : JsNum
  impressions : Option ℤ
  clicks : Option ℤ
  reach : Option ℤ
  frequency : JsNum
  ctr : JsNum
  cpc : JsNum
  cpm : JsNum
  unique_clicks : Option ℤ
  purchases : JsNum
  revenue : JsNum
  roas : JsNum
  cpa : JsNum
  add_to_carts : JsNum
  cost_per_atc : JsNum
  initiate_checkouts : JsNum
  view_contents : JsNum
  leads : JsNum
deriving Repr, DecidableEq

/-- The `calcDerivedMetrics` normalizer of the source: parse the numeric string
    fields, extract the named actions, compute the guarded ratios, and round the
    currency/rate outputs to 2 decimal places. -/
def calcDerivedMetrics (row : MetricRow) : DerivedMetrics :=
  let spend := parseFloat (jsOrZero row.spend)
  let impressions := parseInt10 (jsOrZero row.impressions)
  let clicks := parseInt10 (jsOrZero row.clicks)
  let reach := parseInt10 (jsOrZero row.reach)
  let ctr := parseFloat (jsOrZero row.ctr)
  let cpc := parseFloat (jsOrZero row.cpc)
  let cpm := parseFloat (jsOrZero row.cpm)
  let frequency := parseFloat (jsOrZero row.frequency)
  let uniqueClicks := parseInt10 (jsOrZero row.unique_clicks)
  let purchases := getActionValue row.actions "purchase"
  let addToCarts := getActionValue row.actions "add_to_cart"
  let initiateCheckouts := getActionValue row.actions "initiate_checkout"
  let viewContents := getActionValue row.actions "view_content"
  let leads := getActionValue row.actions "lead"
  let revenue := getActionValue row.action_values "purchase"
  let roas := if jsGtZero spend then round2O (jsDiv revenue spend) else some 0
  let cpa := if jsGtZero purchases then round2O (jsDiv spend purchases) else some 0
  let costPerATC := if jsGtZero addToCarts then round2O (jsDiv spend addToCarts) else some 0
  { spend := round2O spend
    impressions := impressions
    clicks := clicks
    reach := reach
    frequency := round2O frequency
    ctr := round2O ctr
    cpc := round2O cpc
    cpm := round2O cpm
    unique_clicks := uniqueClicks
    purchases := purchases
    revenue := round2O revenue
    roas := roas
    cpa := cpa
    add_to_carts := addToCarts
    cost_per_atc := costPerATC
    initiate_checkouts := initiateCheckouts
    view_contents := viewContents
    leads := leads }

/-! ## Comparison arithmetic and its string formatting -/

/-- Decimal expansion of n/100 for a natural n: an integer prints bare,
    otherwise the shortest expansion with one or two fraction digits. -/
def fmt2absN (n : ℕ) : String :=
  let ip := n / 100
  let fr := n % 100
  if fr = 0 then toString ip
  else if fr % 10 = 0 then toString ip ++ "." ++ toString (fr / 10)
  else toString ip ++ "." ++ (if fr < 10 then "0" ++ toString fr else toString fr)

/-- JS Number-to-string for the non-negative multiples of 1/100 that `pctChange`
    produces. -/
def fmt2abs (q : ℚ) : String := fmt2absN ⌊q * 100⌋.toNat

/-- JS Number-to-string for the multiples of 1/100 that `pctChange` produces
    (negative zero prints as "0", as in JS). -/
def fmtNum (q : ℚ) : String :=
  if q < 0 then "-" ++ fmt2abs (-q) else fmt2abs q

/-- The 1-decimal rounding `Math.round(q * 10) / 10`. -/
def round1 (q : ℚ) : ℚ := (jsRound (q * 10) : ℚ) / 10

/-- The `pctChange` of the source: the sign prefix comes from the raw difference,
    the delta string is the difference rounded to 2 decimals, and the percentage
    uses the raw difference over `previous` rounded to 1 decimal, with the
    division-by-zero fallback (100 when current > 0, else 0). -/
def pctChange (current previous : ℚ) : String × String :=
  let d := current - previous
  let sign := if 0 ≤ d then "+" else ""
  let pct : ℚ :=
    if previous ≠ 0 then (jsRound (d / previous * 1000) : ℚ) / 10
    else if 0 < current then 100 else 0
  (sign ++ fmtNum ((jsRound (d * 100) : ℚ) / 100), sign ++ fmtNum pct ++ "%")

/-- Modelled from the spec: the comparison arithmetic as the specification words
    it, where the percentage is computed from the already-rounded delta
    (`pct = round1((delta/previous)*100)` with `delta = round2(current-previous)`).
    Kept separate from the source's `pctChange` for comparison. -/
def pctChangeSpec (current previous : ℚ) : String × String :=
  let delta := round2 (current - previous)
  let sign := if 0 ≤ delta then "+" else ""
  let pct : ℚ :=
    if previous ≠ 0 then round1 (delta / previous * 100)
    else if 0 < current then 100 else 0
  (sign ++ fmtNum delta, sign ++ fmtNum pct ++ "%")

/-! ## Calendar dates and the date range resolver

Calendar dates are modelled as day numbers: days since 1970-01-01, in the single
fixed (UTC) zone the source works in.  The JS `setDate` arithmetic on a date is
then plain integer addition, and `Math.round((u - s) / 86400000)` is exact
subtraction of day numbers. -/

abbrev Day := ℤ

/-- JS `Date.prototype.getDay` (0 = Sunday); day number 0, 1970-01-01, was a
    Thursday. -/
def jsGetDay (d : Day) : ℤ := (d + 4) % 7

/-- Day number of a civil year/month/day (Howard Hinnant's days_from_civil;
    this is the conversion the source performs through the JS Date object). -/
def dayFromCivil (y : ℤ) (m d : ℕ) : Day :=
  let y' : ℤ := if m ≤ 2 then y - 1 else y
  let era : ℤ := Int.fdiv y' 400
  let yoe : ℕ := (y' - era * 400).toNat
  let mp : ℕ := (m + 9) % 12
  let doy : ℕ := (153 * mp + 2) / 5 + d - 1
  let doe : ℕ := yoe * 365 + yoe / 4 - yoe / 100 + doy
  era * 146097 + (doe : ℤ) - 719468

/-- Civil (year, month, day) of a day number (Hinnant's civil_from_days). -/
def civilFromDay (z : Day) : ℤ × ℕ × ℕ :=
  let z' := z + 719468
  let era : ℤ := Int.fdiv z' 146097
  let doe : ℕ := (z' - era * 146097).toNat
  let yoe : ℕ := (doe - doe / 1460 + doe / 36524 - doe / 146096) / 365
  let y : ℤ := (yoe : ℤ) + era * 400
  let doy : ℕ := doe - (365 * yoe + yoe / 4 - yoe / 100)
  let mp : ℕ := (5 * doy + 2) / 153
  let d : ℕ := doy - (153 * mp + 2) / 5 + 1
  let m : ℕ := if mp < 10 then mp + 3 else mp - 9
  (if m ≤ 2 then y + 1 else y, m, d)

/-- An inclusive calendar interval, as the resolver returns it. -/
structure DateRange where
  since : Day
  until' : Day
deriving Repr, DecidableEq

/-- The argument of `resolveDateRange`: an explicit `{since, until}` object or a
    symbolic string. -/
inductive TimeRange where
  | explicit (r : DateRange)
  | sym (s : String)
deriving Repr, DecidableEq

/-- The `^last_(\d+)d$` regex of the resolver's default branch, on character
    lists: the literal prefix "last_", at least one decimal digit, then the
    literal "d"; the captured value is the digits' radix-10 value. -/
def lastNdMatch (cs : List Char) : Option ℕ :=
  if cs.take 5 = "last_".data then
    let rest := cs.drop 5
    let mid := rest.dropLast
    if rest.getLast? = some 'd' ∧ mid ≠ [] ∧ mid.all Char.isDigit then
      some (digitsToNat mid)
    else none
  else none

/-- The `resolveDateRange` of the source, relative to the current date `today`.
    An explicit object is returned as-is; the six fixed symbolic names get their
    week/month arithmetic; anything else goes through the `last_<N>d` regex with
    fallback 7. -/
def resolveDateRange (today : Day) : TimeRange → DateRange
  | .explicit r => r
  | .sym s =>
    if s = "today" then ⟨today, today⟩
    else if s = "yesterday" then ⟨today - 1, today - 1⟩
    else if s = "this_week" then
      let dow := jsGetDay today
      let mon := today - (if dow = 0 then 6 else dow - 1)
      ⟨mon, today⟩
    else if s = "last_week" then
      let dow := jsGetDay today
      let mon := today - (if dow = 0 then 6 else dow - 1) - 7
      ⟨mon, mon + 6⟩
    else if s = "this_month" then
      let c := civilFromDay today
      ⟨dayFromCivil c.1 c.2.1 1, today⟩
    else if s = "last_month" then
      let c := civilFromDay today
      let firstPrev :=
        if c.2.1 = 1 then dayFromCivil (c.1 - 1) 12 1 else dayFromCivil c.1 (c.2.1 - 1) 1
      ⟨firstPrev, dayFromCivil c.1 c.2.1 1 - 1⟩
    else
      let days : ℕ := match lastNdMatch s.data with | some n => n | none => 7
      let u := today - 1
      ⟨u - days + 1, u⟩

/-- The `getPreviousPeriod` of the source: day count of the range, then the
    immediately preceding window of that length. -/
def getPreviousPeriod (since until' : Day) : DateRange :=
  let days : ℤ := (until' - since) + 1
  let prevUntil := since - 1
  ⟨prevUntil - days + 1, prevUntil⟩

/-! ## Redundant-signal filter -/

/-- The REDUNDANT_ACTION_PREFIXES constant of the source. -/
def REDUNDANT_ACTION_PREFIXES : List String :=
  ["omni_", "onsite_web_app_", "onsite_web_", "onsite_app_",
   "web_app_in_store_", "offsite_conversion.fb_pixel_"]

/-- Drop the entries whose `action_type` (with `String(x || '')`) starts with one
    of the redundant prefixes. -/
def stripEntries (l : List ActionEntry) : List ActionEntry :=
  l.filter (fun a =>
    !(REDUNDANT_ACTION_PREFIXES.any
      (fun p => p.data.isPrefixOf (jsOrEmpty a.action_type).data)))

/-- Apply `stripEntries` to each of the four action-list fields of a row, when
    present as a list. -/
def stripRow (r : MetricRow) : MetricRow :=
  { r with
    actions := r.actions.map stripEntries
    action_values := r.action_values.map stripEntries
    cost_per_action_type := r.cost_per_action_type.map stripEntries
    conversions := r.conversions.map stripEntries }

/-- One raw insights payload: the optional `data` array of rows. -/
structure InsightsPayload where
  data : Option (List MetricRow)
deriving Repr, DecidableEq

/-- The `stripRedundantActions` of the source: map `stripRow` over the `data`
    array when it is present; a payload without one passes through. -/
def stripRedundantActions (p : InsightsPayload) : InsightsPayload :=
  ⟨p.data.map (fun rows => rows.map stripRow)⟩

/-! ## Batch fan-out of bulk_get_insights -/

/-- One per-item outcome of the bulk fan-out: the item's id with either its
    fetched payload or that item's error message. -/
inductive FetchOutcome where
  | data (id : String) (payload : InsightsPayload)
  | failed (id : String) (error : String)
deriving Repr, DecidableEq

/-- The fan-out of the bulk_get_insights handler: settle every per-id fetch
    (`Promise.allSettled` over `objectIds.map(id => graphGet(...))`), then build
    one outcome per input id, in input order — a fulfilled fetch contributes its
    payload (compacted when requested), a rejected one contributes its reason's
    message.  `fetchOne id` is the settled outcome of the id's fetch. -/
def fetchAll (compact : Bool) (ids : List String)
    (fetchOne : String → Except String InsightsPayload) : List FetchOutcome :=
  ids.map fun id =>
    match fetchOne id with
    | .ok v => .data id (if compact then stripRedundantActions v else v)
    | .error msg => .failed id msg

/-! ## Report assembler (generate_report handler) -/

/-- The `extract` helper of generate_report: a fulfilled call contributes
    `(r.value)?.data || []`, a rejected one contributes `[]`. -/
def extract : Except String InsightsPayload → List MetricRow
  | .ok v => v.data.getD []
  | .error _ => []

/-- Case-insensitive substring test
    `String(name || '').toLowerCase().includes(f.toLowerCase())`. -/
def nameMatches (name : Option String) (f : String) : Bool :=
  ((jsOrEmpty name).toLower.data.tails.any (fun t => f.toLower.data.isPrefixOf t))

/-- JS `String(x)` on an optional string (undefined prints as "undefined"),
    as the per-campaign comparison keys its Map. -/
def jsStringOfId : Option String → String
  | none => "undefined"
  | some s => s

/-- One row of the report's by-campaign section before comparisons. -/
structure CampaignEntry where
  campaign_id : Option String
  campaign_name : Option String
  metrics : DerivedMetrics
deriving Repr, DecidableEq

/-- The keep-in-place order of the JS `sort((a, b) => b.spend - a.spend)`:
    `a` may stay before `b` when the comparator is ≤ 0, and also when it is NaN
    (the ES spec maps a NaN comparator result to +0). -/
def spendLe (a b : CampaignEntry) : Bool :=
  match a.metrics.spend, b.metrics.spend with
  | some x, some y => decide (y ≤ x)
  | _, _ => true

/-- Field lookup `d[m]` for the metric names the comparison loops use. -/
def getMetric (d : DerivedMetrics) : String → JsNum
  | "spend" => d.spend
  | "impressions" => d.impressions.map (fun z => (z : ℚ))
  | "clicks" => d.clicks.map (fun z => (z : ℚ))
  | "reach" => d.reach.map (fun z => (z : ℚ))
  | "frequency" => d.frequency
  | "ctr" => d.ctr
  | "cpc" => d.cpc
  | "cpm" => d.cpm
  | "unique_clicks" => d.unique_clicks.map (fun z => (z : ℚ))
  | "purchases" => d.purchases
  | "revenue" => d.revenue
  | "roas" => d.roas
  | "cpa" => d.cpa
  | "add_to_carts" => d.add_to_carts
  | "cost_per_atc" => d.cost_per_atc
  | "initiate_checkouts" => d.initiate_checkouts
  | "view_contents" => d.view_contents
  | "leads" => d.leads
  | _ => none

/-- The metric names of the aggregate period comparison. -/
def comparisonMetrics : List String :=
  ["spend", "roas", "cpa", "impressions", "clicks", "purchases", "revenue",
   "ctr", "cpm", "reach", "frequency", "add_to_carts", "initiate_checkouts",
   "view_contents"]

/-- The metric names of the per-campaign comparison. -/
def campaignComparisonMetrics : List String :=
  ["spend", "roas", "cpa", "purchases", "revenue", "ctr", "impressions"]

/-- One named `pctChange` pair list, as the comparison loops build it:
    `changes[m] = pctChange(cur[m] || 0, prev[m] || 0)`. -/
def buildChanges (names : List String) (cur prev : DerivedMetrics) :
    List (String × String × String) :=
  names.map fun m =>
    (m, pctChange (jsNumOrZero (getMetric cur m)) (jsNumOrZero (getMetric prev m)))

/-- The period_comparison block of the report. -/
structure PeriodComparison where
  this_range : DateRange
  previous_range : DateRange
  this_period : DerivedMetrics
  previous_period : DerivedMetrics
  changes : List (String × String × String)
deriving Repr, DecidableEq

/-- The report generate_report returns.  `by_campaign` pairs each campaign entry
    with its `vs_previous` field: `none` when the field is absent (no previous
    campaign data), `some none` for an explicit null (no matching previous row),
    `some (some cs)` for a change list. -/
structure Report where
  period : DateRange
  account_summary : Option DerivedMetrics
  daily_breakdown : List (Option String × DerivedMetrics)
  period_comparison : Option PeriodComparison
  by_campaign : List (CampaignEntry × Option (Option (List (String × String × String))))
deriving Repr

/-- The campaign pipeline of generate_report: one entry per current-period
    campaign row, filtered by the optional name substrings, restricted to
    non-zero spend, sorted by spend descending. -/
def reportCampaigns (nameFilters : Option (List String))
    (r1 : Except String InsightsPayload) : List CampaignEntry :=
  let campaigns0 := (extract r1).map
    (fun r => CampaignEntry.mk r.campaign_id r.campaign_name (calcDerivedMetrics r))
  let campaigns1 : List CampaignEntry :=
    match nameFilters with
    | some (f :: fs) =>
        campaigns0.filter (fun c => (f :: fs).any (fun g => nameMatches c.campaign_name g))
    | _ => campaigns0
  (campaigns1.filter (fun c => jsGtZero c.metrics.spend)).mergeSort spendLe

/-- The period_comparison block of generate_report: built only when comparing,
    the previous-period aggregate produced at least one row, and the current
    aggregate summary is present. -/
def reportComparison (comparePrevious : Bool) (currentRange : DateRange)
    (accountSummary : Option DerivedMetrics) (prevAccountData : List MetricRow) :
    Option PeriodComparison :=
  match comparePrevious, prevAccountData, accountSummary with
  | true, prevRow :: _, some cur =>
      let prevSummary := calcDerivedMetrics prevRow
      some (PeriodComparison.mk currentRange
        (getPreviousPeriod currentRange.since currentRange.until') cur prevSummary
        (buildChanges comparisonMetrics cur prevSummary))
  | _, _, _ => none

/-- The by-campaign section of generate_report: when comparing and previous
    campaign rows exist, each campaign is joined (by the JS-stringified
    campaign_id, last previous row winning) to its `vs_previous` change list or
    an explicit null; otherwise the entries carry no `vs_previous` field. -/
def reportByCampaign (comparePrevious : Bool) (campaigns : List CampaignEntry)
    (prevCampaignData : List MetricRow) :
    List (CampaignEntry × Option (Option (List (String × String × String)))) :=
  match comparePrevious, prevCampaignData with
  | true, p :: ps =>
      campaigns.map fun c =>
        match ((p :: ps).reverse.find?
            (fun r => jsStringOfId r.campaign_id == jsStringOfId c.campaign_id)) with
        | some prevRow =>
            (c, some (some (buildChanges campaignComparisonMetrics c.metrics
              (calcDerivedMetrics prevRow))))
        | none => (c, some none)
  | _, _ => campaigns.map fun c => (c, none)

/-- The report assembly of the generate_report handler (the portion after
    `Promise.allSettled`), with the five settled sub-fetch outcomes as inputs:
    r0 = current-period account aggregate, r1 = current-period campaign
    breakdown, r2 = current-period daily series, r3/r4 = previous-period
    aggregate/campaign breakdown (read only when `comparePrevious`).  All
    failures pass through `extract`, which degrades them to an empty row list;
    the handler itself always returns a report. -/
def generateReport (comparePrevious : Bool) (nameFilters : Option (List String))
    (currentRange : DateRange) (r0 r1 r2 r3 r4 : Except String InsightsPayload) :
    Report :=
  let prevAccountData := if comparePrevious then extract r3 else []
  let prevCampaignData := if comparePrevious then extract r4 else []
  let accountSummary := (extract r0).head?.map calcDerivedMetrics
  { period := currentRange
    account_summary := accountSummary
    daily_breakdown := (extract r2).map (fun row => (row.date_start, calcDerivedMetrics row))
    period_comparison := reportComparison comparePrevious currentRange accountSummary
      prevAccountData
    by_campaign := reportByCampaign comparePrevious (reportCampaigns nameFilters r1)
      prevCampaignData }

/-! ## Predicates for the normalizer's totality -/

/-- Every numeric parse performed by `calcDerivedMetrics` on the row succeeds
    (no present field or looked-up action value is unparseable text). -/
def RowParses (row : MetricRow) : Prop :=
  (parseFloat (jsOrZero row.spend)).isSome = true ∧
  (parseInt10 (jsOrZero row.impressions)).isSome = true ∧
  (parseInt10 (jsOrZero row.clicks)).isSome = true ∧
  (parseInt10 (jsOrZero row.reach)).isSome = true ∧
  (parseFloat (jsOrZero row.ctr)).isSome = true ∧
  (parseFloat (jsOrZero row.cpc)).isSome = true ∧
  (parseFloat (jsOrZero row.cpm)).isSome = true ∧
  (parseFloat (jsOrZero row.frequency)).isSome = true ∧
  (parseInt10 (jsOrZero row.unique_clicks)).isSome = true ∧
  (getActionValue row.actions "purchase").isSome = true ∧
  (getActionValue row.actions "add_to_cart").isSome = true ∧
  (getActionValue row.actions "initiate_checkout").isSome = true ∧
  (getActionValue row.actions "view_content").isSome = true ∧
  (getActionValue row.actions "lead").isSome = true ∧
  (getActionValue row.action_values "purchase").isSome = true

/-- Every numeric field of the metric bundle is a (finite) real number — none of
    them is NaN or an infinity. -/
def MetricsReal (d : DerivedMetrics) : Prop :=
  d.spend.isSome = true ∧ d.impressions.isSome = true ∧ d.clicks.isSome = true ∧
  d.reach.isSome = true ∧ d.frequency.isSome = true ∧ d.ctr.isSome = true ∧
  d.cpc.isSome = true ∧ d.cpm.isSome = true ∧ d.unique_clicks.isSome = true ∧
  d.purchases.isSome = true ∧ d.revenue.isSome = true ∧ d.roas.isSome = true ∧
  d.cpa.isSome = true ∧ d.add_to_carts.isSome = true ∧ d.cost_per_atc.isSome = true ∧
  d.initiate_checkouts.isSome = true ∧ d.view_contents.isSome = true ∧
  d.leads.isSome = true

instance (row : MetricRow) : Decidable (RowParses row) := by
  unfold RowParses
  infer_instance

instance (d : DerivedMetrics) : Decidable (MetricsReal d) := by
  unfold MetricsReal
  infer_instance

/-! ## Concrete inputs used by witnesses and counterexamples -/

/-- A response body with no error envelope, for concrete executor runs. -/
def bodyW : RespBody := ⟨none, "oops"⟩

/-- An operation whose every attempt yields HTTP 503. -/
def att503W : Nat → Attempt := fun _ => .response 503 bodyW

/-- An operation whose every attempt yields HTTP 404. -/
def att404W : Nat → Attempt := fun _ => .response 404 bodyW

/-- An operation whose every attempt exceeds the deadline. -/
def abortAttW : Nat → Attempt := fun _ => .abortError

/-- A row whose spend field holds unparseable text. -/
def rowNanW : MetricRow := { emptyRow with spend := some "abc" }

/-- A fully parseable row. -/
def rowRealW : MetricRow :=
  { emptyRow with
    spend := some "100.5", impressions := some "2000", clicks := some "50",
    actions := some [⟨some "purchase", some "4"⟩, ⟨some "add_to_cart", some "9"⟩],
    action_values := some [⟨some "purchase", some "201"⟩] }

/-- A row with zero parsed spend and zero parsed purchases. -/
def rowZeroW : MetricRow :=
  { emptyRow with spend := some "0", actions := some [⟨some "purchase", some "0"⟩] }

/-- A per-item fetch that fails exactly for id "b". -/
def fetchOneW : String → Except String InsightsPayload :=
  fun id => if id = "b" then .error "boom" else .ok ⟨none⟩

/-- A fulfilled sub-fetch with an empty data array. -/
def okEmptyW : Except String InsightsPayload := .ok ⟨some []⟩

end MetaAds

namespace MetaAds

/-! ## Theorems -/

/-- Helper: when every attempt yields a 503 response, the attempt loop consumes
    all its fuel and ends with the server error of the final attempt. -/
theorem graphRequestLoop_all503 (att : Nat → Attempt) (retries : Nat)
    (bodies : Nat → RespBody) (h : ∀ i, att i = .response 503 (bodies i)) :
    ∀ fuel attempt, attempt + fuel = retries + 1 → 1 ≤ fuel →
      graphRequestLoop att retries fuel attempt =
        (.error ⟨errDetail 503 (bodies retries), 503⟩, fuel) := by
  intro fuel
  induction fuel with
  | zero => intro attempt _ h2; exact absurd h2 (by omega)
  | succ n ih =>
    intro attempt h1 _
    simp only [graphRequestLoop, h attempt]
    rw [if_neg (by decide : ¬(200 ≤ 503 ∧ 503 ≤ 299)),
        if_neg (by decide : ¬(400 ≤ 503 ∧ 503 < 500))]
    by_cases hn : attempt < retries
    · rw [if_pos hn, ih (attempt + 1) (by omega) (by omega)]
    · have ha : attempt = retries := by omega
      have hz : n = 0 := by omega
      subst ha hz
      rw [if_neg hn]

/-- C1: for every policy, an operation whose every attempt yields HTTP 503 makes
    the executor perform exactly `retries + 1` attempts and then raise an
    `ApiError` with status 503 (kind server), while an operation whose every
    attempt yields HTTP 404 makes it perform exactly 1 attempt and raise an
    `ApiError` with status 404 (kind client) without any retry. -/
theorem graphRequest_retry_bound (retries : Nat) (att503 att404 : Nat → Attempt)
    (bodies503 bodies404 : Nat → RespBody)
    (h503 : ∀ i, att503 i = .response 503 (bodies503 i))
    (h404 : ∀ i, att404 i = .response 404 (bodies404 i)) :
    graphRequest att503 retries = (.error ⟨errDetail 503 (bodies503 retries), 503⟩, retries + 1) ∧
    (ApiError.mk (errDetail 503 (bodies503 retries)) 503).kind = .server ∧
    graphRequest att404 retries = (.error ⟨errDetail 404 (bodies404 0), 404⟩, 1) ∧
    (ApiError.mk (errDetail 404 (bodies404 0)) 404).kind = .client := by
  refine ⟨?_, rfl, ?_, rfl⟩
  · exact graphRequestLoop_all503 att503 retries bodies503 h503 (retries + 1) 0
      (by omega) (by omega)
  · simp only [graphRequest, graphRequestLoop, h404 0]
    rw [if_neg (by decide : ¬(200 ≤ 404 ∧ 404 ≤ 299)),
        if_pos (by decide : 400 ≤ 404 ∧ 404 < 500)]

/-- Witness for C1 at the default policy (2 retries): 3 attempts for the
    always-503 operation, 1 attempt for the always-404 one. -/
theorem graphRequest_retry_bound_witness :
    graphRequest att503W 2 = (.error ⟨errDetail 503 bodyW, 503⟩, 2 + 1) ∧
    (ApiError.mk (errDetail 503 bodyW) 503).kind = .server ∧
    graphRequest att404W 2 = (.error ⟨errDetail 404 bodyW, 404⟩, 1) ∧
    (ApiError.mk (errDetail 404 bodyW) 404).kind = .client :=
  graphRequest_retry_bound 2 att503W att404W (fun _ => bodyW) (fun _ => bodyW)
    (fun _ => rfl) (fun _ => rfl)

/-- C2 counterexample: an operation whose every attempt times out is not
    retried at all — with the default policy of 2 retries the executor performs
    a single attempt and raises the 408 timeout error at once, refuting the
    claim that a timed-out attempt is classified retryable and retried before a
    timeout CallError is surfaced. -/
theorem graphRequest_timeout_cex :
    graphRequest abortAttW 2 = (.error ⟨timeoutMsg, 408⟩, 1) ∧
    (graphRequest abortAttW 2).2 ≠ MAX_RETRIES + 1 := by
  exact ⟨rfl, by decide⟩

/-- C2 amended: when the first attempt exceeds the timeout deadline the executor
    raises the timeout `ApiError` (synthetic status 408, kind timeout)
    immediately, performing exactly one attempt, for every retry budget. -/
theorem graphRequest_timeout_immediate (retries : Nat) (att : Nat → Attempt)
    (h : att 0 = .abortError) :
    graphRequest att retries = (.error ⟨timeoutMsg, 408⟩, 1) ∧
    (ApiError.mk timeoutMsg 408).kind = .timeout := by
  exact ⟨by simp only [graphRequest, graphRequestLoop, h], rfl⟩

/-- Witness for the amended C2 at a concrete policy of 5 retries. -/
theorem graphRequest_timeout_immediate_witness :
    graphRequest abortAttW 5 = (.error ⟨timeoutMsg, 408⟩, 1) ∧
    (ApiError.mk timeoutMsg 408).kind = .timeout :=
  graphRequest_timeout_immediate 5 abortAttW rfl

/-- C6: for every range with since ≤ until, the previous period ends the day
    before the range starts and spans the same number of days. -/
theorem getPreviousPeriod_adjacent (since until' : Day) (h : since ≤ until') :
    (getPreviousPeriod since until').until' = since - 1 ∧
    (getPreviousPeriod since until').until' - (getPreviousPeriod since until').since
      = until' - since := by
  refine ⟨rfl, ?_⟩
  show (since - 1) - ((since - 1) - ((until' - since) + 1) + 1) = until' - since
  ring

/-- Witness for C6 at the one-week range day 10 .. day 16. -/
theorem getPreviousPeriod_adjacent_witness :
    (getPreviousPeriod 10 16).until' = 10 - 1 ∧
    (getPreviousPeriod 10 16).until' - (getPreviousPeriod 10 16).since = 16 - 10 :=
  getPreviousPeriod_adjacent 10 16 (by decide)

/-- C10: the resolver returns an explicit range object unchanged, in particular
    an inverted range with since > until passes through without validation. -/
theorem resolveDateRange_explicit_passthrough (today : Day) :
    (∀ r : DateRange, resolveDateRange today (.explicit r) = r) ∧
    ∀ since until' : Day, until' < since →
      resolveDateRange today (.explicit ⟨since, until'⟩) = ⟨since, until'⟩ :=
  ⟨fun _ => rfl, fun _ _ _ => rfl⟩

/-- Witness for C10 at the inverted range ⟨5, 3⟩. -/
theorem resolveDateRange_explicit_passthrough_witness :
    resolveDateRange 0 (.explicit ⟨5, 3⟩) = ⟨5, 3⟩ :=
  (resolveDateRange_explicit_passthrough 0).2 5 3 (by decide)

/-- Helper: the rounding `⌊q + 1/2⌋` evaluated through its characterizing
    inequalities, so concrete values go through norm_num rather than kernel
    reduction on ℚ. -/
theorem jsRound_eq (q : ℚ) (k : ℤ) (h1 : (k : ℚ) ≤ q + 1 / 2) (h2 : q + 1 / 2 < k + 1) :
    jsRound q = k := by
  rw [jsRound]
  exact Int.floor_eq_iff.mpr ⟨h1, h2⟩

/-- Helper: rounding zero to 2 decimals gives zero. -/
theorem round2_zero : round2 0 = 0 := by
  rw [round2, jsRound_eq (0 * 100) 0 (by norm_num) (by norm_num)]
  norm_num

/-- Helper: the JS parse of the string "0" is the number 0. -/
theorem parseFloat_zero : parseFloat "0" = some 0 := by
  rw [parseFloat,
    show "0".data.dropWhile Char.isWhitespace = ['0'] from by decide]
  have h1 : parseSign ['0'] = (false, ['0']) := by decide
  have h2 : takeDigits ['0'] = (['0'], []) := by decide
  have h3 : digitsToNat ['0'] = 0 := by decide
  have h4 : digitsToNat ([] : List Char) = 0 := by decide
  simp only [parseFloatL, h1, h2, h3, h4]
  norm_num [pow10]

/-- Helper: the guarded ratio with a zero numerator is 0 whatever the
    denominator (either the guard fails, or 0 divided by a positive value
    rounds to 0). -/
theorem ratio_zero_num (den : JsNum) :
    (if jsGtZero den then round2O (jsDiv (some 0) den) else some 0) = some 0 := by
  cases den with
  | none => rfl
  | some p =>
    by_cases hp : (0 : ℚ) < p
    · have hg : jsGtZero (some p) = true := by simp [jsGtZero, hp]
      have hp' : p ≠ 0 := ne_of_gt hp
      rw [if_pos hg]
      simp [jsDiv, hp', round2O, round2_zero]
    · have hg : jsGtZero (some p) = false := by simp [jsGtZero, hp]
      rw [if_neg (by simp [hg])]

/-- C8: a row whose parsed spend is 0 normalizes to roas = 0 and cpa = 0, and a
    row whose parsed purchase count is 0 normalizes to cpa = 0 — the guarded
    ratios never divide by zero. -/
theorem calcDerivedMetrics_div_zero_safety (row : MetricRow) :
    (parseFloat (jsOrZero row.spend) = some 0 →
      (calcDerivedMetrics row).roas = some 0 ∧ (calcDerivedMetrics row).cpa = some 0) ∧
    (getActionValue row.actions "purchase" = some 0 →
      (calcDerivedMetrics row).cpa = some 0) := by
  constructor
  · intro hs
    constructor
    · simp only [calcDerivedMetrics, hs]
      rw [if_neg (by decide)]
    · simp only [calcDerivedMetrics, hs]
      exact ratio_zero_num _
  · intro hp
    simp only [calcDerivedMetrics, hp]
    rw [if_neg (by decide)]

/-- Witness for C8 at a row with spend "0" and a purchase action of value "0". -/
theorem calcDerivedMetrics_div_zero_safety_witness :
    ((calcDerivedMetrics rowZeroW).roas = some 0 ∧ (calcDerivedMetrics rowZeroW).cpa = some 0) ∧
    (calcDerivedMetrics rowZeroW).cpa = some 0 :=
  ⟨(calcDerivedMetrics_div_zero_safety rowZeroW).1 parseFloat_zero,
   (calcDerivedMetrics_div_zero_safety rowZeroW).2 parseFloat_zero⟩

/-- C3 counterexample: a row whose spend field holds the unparseable text "abc"
    normalizes to a spend that is NaN (`none`), not to the real number 0 the
    claim requires — the pipeline does propagate NaN into its output. -/
theorem calcDerivedMetrics_nan_cex :
    (calcDerivedMetrics rowNanW).spend = none ∧
    (calcDerivedMetrics rowNanW).spend ≠ some 0 := by
  exact ⟨rfl, by decide⟩

/-- Helper: 2-decimal rounding keeps a finite JS number finite. -/
theorem round2O_isSome (x : JsNum) (h : x.isSome = true) :
    (round2O x).isSome = true := by
  cases x with
  | none => simp at h
  | some q => rfl

/-- Helper: the guarded ratio is finite whenever its numerator is finite (the
    guard admits only positive, hence nonzero, denominators). -/
theorem ratio_isSome (num den : JsNum) (hn : num.isSome = true) :
    (if jsGtZero den then round2O (jsDiv num den) else some 0).isSome = true := by
  cases den with
  | none => rfl
  | some p =>
    by_cases hp : (0 : ℚ) < p
    · obtain ⟨n, rfl⟩ := Option.isSome_iff_exists.mp hn
      have hg : jsGtZero (some p) = true := by simp [jsGtZero, hp]
      have hp' : p ≠ 0 := ne_of_gt hp
      rw [if_pos hg]
      simp [jsDiv, hp', round2O]
    · have hg : jsGtZero (some p) = false := by simp [jsGtZero, hp]
      rw [if_neg (by simp [hg])]
      rfl

/-- C3 amended: absent fields do default to 0 (an absent string parses as "0"
    and a missing action yields 0), and whenever every numeric parse of the row
    succeeds, every numeric field of the output is a finite real number; but an
    unparseable non-empty string makes the corresponding output NaN (see the
    counterexample), so the no-NaN guarantee holds only for parseable rows. -/
theorem calcDerivedMetrics_real_when_parseable :
    (parseFloat (jsOrZero none) = some 0 ∧ parseInt10 (jsOrZero none) = some 0 ∧
      ∀ t, getActionValue none t = some 0) ∧
    ∀ row : MetricRow, RowParses row → MetricsReal (calcDerivedMetrics row) := by
  refine ⟨⟨parseFloat_zero, rfl, fun _ => rfl⟩, ?_⟩
  intro row h
  obtain ⟨h1, h2, h3, h4, h5, h6, h7, h8, h9, h10, h11, h12, h13, h14, h15⟩ := h
  simp only [MetricsReal, calcDerivedMetrics]
  refine ⟨round2O_isSome _ h1, h2, h3, h4, round2O_isSome _ h8, round2O_isSome _ h5,
    round2O_isSome _ h6, round2O_isSome _ h7, h9, h10, round2O_isSome _ h15,
    ratio_isSome _ _ h15, ratio_isSome _ _ h1, h11, ratio_isSome _ _ h1, h12, h13, h14⟩

/-- Witness for the amended C3 at a fully parseable row. -/
theorem calcDerivedMetrics_real_when_parseable_witness :
    MetricsReal (calcDerivedMetrics rowRealW) :=
  calcDerivedMetrics_real_when_parseable.2 rowRealW (by decide)

/-- Helper: evaluating `fmtNum` at a non-negative multiple of 1/100 through the
    ℕ-level formatter, without kernel reduction on ℚ. -/
theorem fmtNum_nonneg_eval (q : ℚ) (n : ℕ) (h : q * 100 = (n : ℚ)) :
    fmtNum q = fmt2absN n := by
  have hq : ¬(q < 0) := by
    intro hq0
    have hneg : q * 100 < 0 := mul_neg_of_neg_of_pos hq0 (by norm_num)
    rw [h] at hneg
    exact absurd hneg (not_lt.mpr (by positivity))
  rw [fmtNum, if_neg hq, fmt2abs,
    show q * 100 = ((n : ℤ) : ℚ) from by rw [h]; push_cast; ring,
    Int.floor_intCast, Int.toNat_natCast]

/-- C4 counterexample: the source formats `pctChange(0, 0)` as
    `{delta: "+0", pct: "+0%"}`, not the claimed `{delta: "0", pct: "0%"}`
    (the sign test `d >= 0` also prefixes zero with "+"); and at
    current = 1.004, previous = 1 the source computes the percentage from the
    unrounded difference, yielding "+0.4%", while the claim's formula
    `round1((delta/previous)*100)` with the rounded delta yields "+0%". -/
theorem pctChange_cex :
    pctChange 0 0 = ("+0", "+0%") ∧ (("+0", "+0%") : String × String) ≠ ("0", "0%") ∧
    pctChange (251 / 250) 1 = ("+0", "+0.4%") ∧
    pctChangeSpec (251 / 250) 1 = ("+0", "+0%") := by
  refine ⟨?_, by decide, ?_, ?_⟩
  · have e1 : jsRound ((0 - 0 : ℚ) * 100) = 0 :=
      jsRound_eq _ _ (by norm_num) (by norm_num)
    have f1 : fmtNum (((0 : ℤ) : ℚ) / 100) = fmt2absN 0 :=
      fmtNum_nonneg_eval _ 0 (by norm_num)
    have f2 : fmtNum (0 : ℚ) = fmt2absN 0 := fmtNum_nonneg_eval _ 0 (by norm_num)
    simp only [pctChange, e1]
    rw [if_pos (show (0 : ℚ) ≤ 0 - 0 from by norm_num),
      if_neg (show ¬((0 : ℚ) ≠ 0) from by norm_num),
      if_neg (show ¬((0 : ℚ) < 0) from by norm_num), f1, f2]
    decide
  · have e1 : jsRound ((251 / 250 - 1 : ℚ) * 100) = 0 :=
      jsRound_eq _ _ (by norm_num) (by norm_num)
    have e2 : jsRound ((251 / 250 - 1 : ℚ) / 1 * 1000) = 4 :=
      jsRound_eq _ _ (by norm_num) (by norm_num)
    have f1 : fmtNum (((0 : ℤ) : ℚ) / 100) = fmt2absN 0 :=
      fmtNum_nonneg_eval _ 0 (by norm_num)
    have f2 : fmtNum (((4 : ℤ) : ℚ) / 10) = fmt2absN 40 :=
      fmtNum_nonneg_eval _ 40 (by norm_num)
    simp only [pctChange, e1, e2]
    rw [if_pos (show (0 : ℚ) ≤ 251 / 250 - 1 from by norm_num),
      if_pos (show (1 : ℚ) ≠ 0 from by norm_num), f1, f2]
    decide
  · have e1 : jsRound ((251 / 250 - 1 : ℚ) * 100) = 0 :=
      jsRound_eq _ _ (by norm_num) (by norm_num)
    have e2 : jsRound ((((0 : ℤ) : ℚ) / 100) / 1 * 100 * 10) = 0 :=
      jsRound_eq _ _ (by norm_num) (by norm_num)
    have f1 : fmtNum (((0 : ℤ) : ℚ) / 100) = fmt2absN 0 :=
      fmtNum_nonneg_eval _ 0 (by norm_num)
    have f2 : fmtNum (((0 : ℤ) : ℚ) / 10) = fmt2absN 0 :=
      fmtNum_nonneg_eval _ 0 (by norm_num)
    simp only [pctChangeSpec, round2, round1, e1, e2]
    rw [if_pos (show (0 : ℚ) ≤ ((0 : ℤ) : ℚ) / 100 from by norm_num),
      if_pos (show (1 : ℚ) ≠ 0 from by norm_num), f1, f2]
    decide

/-- C4 amended: the three fixtures with `pctChange(0, 0) = {"+0", "+0%"}`, and
    in general: the sign prefix is "+" exactly when current − previous ≥ 0 (also
    for zero), the delta string is `round2(current − previous)`, and the
    percentage string is `round1(((current − previous)/previous)*100)` — from
    the unrounded difference — with the previous = 0 fallback (100 when
    current > 0, else 0). -/
theorem pctChange_amended :
    pctChange 120 100 = ("+20", "+20%") ∧
    pctChange 0 0 = ("+0", "+0%") ∧
    pctChange 50 0 = ("+50", "+100%") ∧
    ∀ c p : ℚ,
      pctChange c p =
        ((if 0 ≤ c - p then "+" else "") ++ fmtNum (round2 (c - p)),
         (if 0 ≤ c - p then "+" else "") ++
           fmtNum (if p ≠ 0 then round1 ((c - p) / p * 100) else if 0 < c then 100 else 0)
           ++ "%") := by
  refine ⟨?_, ?_, ?_, ?_⟩
  · have e1 : jsRound ((120 - 100 : ℚ) * 100) = 2000 :=
      jsRound_eq _ _ (by norm_num) (by norm_num)
    have e2 : jsRound ((120 - 100 : ℚ) / 100 * 1000) = 200 :=
      jsRound_eq _ _ (by norm_num) (by norm_num)
    have f1 : fmtNum (((2000 : ℤ) : ℚ) / 100) = fmt2absN 2000 :=
      fmtNum_nonneg_eval _ 2000 (by norm_num)
    have f2 : fmtNum (((200 : ℤ) : ℚ) / 10) = fmt2absN 2000 :=
      fmtNum_nonneg_eval _ 2000 (by norm_num)
    simp only [pctChange, e1, e2]
    rw [if_pos (show (0 : ℚ) ≤ 120 - 100 from by norm_num),
      if_pos (show (100 : ℚ) ≠ 0 from by norm_num), f1, f2]
    decide
  · have e1 : jsRound ((0 - 0 : ℚ) * 100) = 0 :=
      jsRound_eq _ _ (by norm_num) (by norm_num)
    have f1 : fmtNum (((0 : ℤ) : ℚ) / 100) = fmt2absN 0 :=
      fmtNum_nonneg_eval _ 0 (by norm_num)
    have f2 : fmtNum (0 : ℚ) = fmt2absN 0 := fmtNum_nonneg_eval _ 0 (by norm_num)
    simp only [pctChange, e1]
    rw [if_pos (show (0 : ℚ) ≤ 0 - 0 from by norm_num),
      if_neg (show ¬((0 : ℚ) ≠ 0) from by norm_num),
      if_neg (show ¬((0 : ℚ) < 0) from by norm_num), f1, f2]
    decide
  · have e1 : jsRound ((50 - 0 : ℚ) * 100) = 5000 :=
      jsRound_eq _ _ (by norm_num) (by norm_num)
    have f1 : fmtNum (((5000 : ℤ) : ℚ) / 100) = fmt2absN 5000 :=
      fmtNum_nonneg_eval _ 5000 (by norm_num)
    have f2 : fmtNum (100 : ℚ) = fmt2absN 10000 := fmtNum_nonneg_eval _ 10000 (by norm_num)
    simp only [pctChange, e1]
    rw [if_pos (show (0 : ℚ) ≤ 50 - 0 from by norm_num),
      if_neg (show ¬((0 : ℚ) ≠ 0) from by norm_num),
      if_pos (show (0 : ℚ) < 50 from by norm_num), f1, f2]
    decide
  · intro c p
    simp only [pctChange, round2, round1]
    rw [show (c - p) / p * 100 * 10 = (c - p) / p * 1000 from by ring]

/-- C9: the bulk fan-out's outcome list matches the input ids in length and
    order; the slot of each id holds its payload when its fetch settled
    fulfilled (compacted when requested) and that id's error message when it
    settled rejected.  The fan-out is a total function — per-item failures
    never fail the batch itself. -/
theorem fetchAll_partial_failure (compact : Bool) (ids : List String)
    (fetchOne : String → Except String InsightsPayload) :
    (fetchAll compact ids fetchOne).length = ids.length ∧
    ∀ (i : Nat) (id : String), ids[i]? = some id →
      (fetchAll compact ids fetchOne)[i]? =
        some (match fetchOne id with
          | .ok v => FetchOutcome.data id (if compact then stripRedundantActions v else v)
          | .error msg => FetchOutcome.failed id msg) := by
  constructor
  · simp [fetchAll]
  · intro i id hid
    simp [fetchAll, List.getElem?_map, hid]

/-- Witness for C9: three ids of which the second always fails give three
    outcomes in input order, the middle one carrying the error. -/
theorem fetchAll_partial_failure_witness :
    (fetchAll false ["a", "b", "c"] fetchOneW).length = 3 ∧
    (fetchAll false ["a", "b", "c"] fetchOneW)[0]? = some (.data "a" ⟨none⟩) ∧
    (fetchAll false ["a", "b", "c"] fetchOneW)[1]? = some (.failed "b" "boom") ∧
    (fetchAll false ["a", "b", "c"] fetchOneW)[2]? = some (.data "c" ⟨none⟩) := by
  have H := fetchAll_partial_failure false ["a", "b", "c"] fetchOneW
  exact ⟨H.1, H.2 0 "a" rfl, H.2 1 "b" rfl, H.2 2 "c" rfl⟩

/-- C5 counterexample: when the required current-period aggregate sub-fetch is
    rejected while every other sub-fetch is fulfilled, the handler still
    produces a report — with account_summary null and no comparison block —
    rather than propagating the failure as an error; the claim that this
    failure propagates to the caller instead of producing a report is false. -/
theorem generateReport_no_propagation_cex :
    (generateReport true none ⟨0, 6⟩ (.error "boom") okEmptyW okEmptyW okEmptyW
      okEmptyW).account_summary = none ∧
    (generateReport true none ⟨0, 6⟩ (.error "boom") okEmptyW okEmptyW okEmptyW
      okEmptyW).period_comparison = none := by
  constructor
  · rfl
  · rfl

/-- Helper: mapping the comparison away from a by-campaign section recovers the
    bare entries, since every slot's first component is its campaign entry. -/
theorem map_pair_fst_none (l : List CampaignEntry)
    (f : CampaignEntry → CampaignEntry × Option (Option (List (String × String × String))))
    (hf : ∀ c, (f c).1 = c) :
    (l.map f).map (fun q => (q.1, (none : Option (Option (List (String × String × String)))))) =
      l.map (fun c => (c, none)) := by
  induction l with
  | nil => rfl
  | cons a l ih => simp only [List.map_cons, ih, hf]

/-- Helper: the comparison block is absent whenever the current aggregate
    summary is absent. -/
theorem reportComparison_none_summary (cp : Bool) (rng : DateRange)
    (l : List MetricRow) : reportComparison cp rng none l = none := by
  cases cp <;> cases l <;> rfl

/-- Helper: the comparison block is absent whenever the previous-period
    aggregate rows are empty. -/
theorem reportComparison_none_prev (cp : Bool) (rng : DateRange)
    (s : Option DerivedMetrics) : reportComparison cp rng s [] = none := by
  cases cp <;> cases s <;> rfl

/-- Helper: with no previous campaign rows, the by-campaign section carries the
    bare entries with no vs_previous field. -/
theorem reportByCampaign_empty (cp : Bool) (camps : List CampaignEntry) :
    reportByCampaign cp camps [] = camps.map (fun c => (c, none)) := by
  cases cp <;> rfl

/-- Helper: dropping the vs_previous data from any by-campaign section yields
    the bare entries. -/
theorem reportByCampaign_fst (cp : Bool) (camps : List CampaignEntry)
    (prev : List MetricRow) :
    (reportByCampaign cp camps prev).map
        (fun q => (q.1, (none : Option (Option (List (String × String × String)))))) =
      camps.map (fun c => (c, none)) := by
  cases cp with
  | false =>
    simp only [reportByCampaign]
    exact map_pair_fst_none camps _ (fun c => rfl)
  | true =>
    cases prev with
    | nil =>
      simp only [reportByCampaign]
      exact map_pair_fst_none camps _ (fun c => rfl)
    | cons p ps =>
      simp only [reportByCampaign]
      refine map_pair_fst_none camps _ (fun c => ?_)
      cases ((p :: ps).reverse.find?
        (fun r => jsStringOfId r.campaign_id == jsStringOfId c.campaign_id)) <;> rfl

/-- C5 amended: a failure of the required current-period aggregate sub-fetch
    does not propagate — the handler still returns a report whose
    account_summary is null and whose comparison block is absent; a failure of
    the optional previous-period sub-fetches degrades the report by omitting
    only the comparison content: period, account summary and daily breakdown
    are unchanged, the comparison block is absent, and the by-campaign section
    lists the same campaigns with their vs_previous data dropped. -/
theorem generateReport_degradation (cp : Bool) (nf : Option (List String))
    (rng : DateRange) (r0 r1 r2 r3 r4 s3 s4 : Except String InsightsPayload)
    (m0 m3 m4 : String) :
    ((generateReport cp nf rng (.error m0) r1 r2 r3 r4).account_summary = none ∧
      (generateReport cp nf rng (.error m0) r1 r2 r3 r4).period_comparison = none) ∧
    ((generateReport cp nf rng r0 r1 r2 (.error m3) (.error m4)).period =
        (generateReport cp nf rng r0 r1 r2 s3 s4).period ∧
      (generateReport cp nf rng r0 r1 r2 (.error m3) (.error m4)).account_summary =
        (generateReport cp nf rng r0 r1 r2 s3 s4).account_summary ∧
      (generateReport cp nf rng r0 r1 r2 (.error m3) (.error m4)).daily_breakdown =
        (generateReport cp nf rng r0 r1 r2 s3 s4).daily_breakdown ∧
      (generateReport cp nf rng r0 r1 r2 (.error m3) (.error m4)).period_comparison = none ∧
      (generateReport cp nf rng r0 r1 r2 (.error m3) (.error m4)).by_campaign =
        ((generateReport cp nf rng r0 r1 r2 s3 s4).by_campaign).map
          (fun q => (q.1, none))) := by
  refine ⟨⟨rfl, ?_⟩, rfl, rfl, rfl, ?_, ?_⟩
  · show reportComparison cp rng none (if cp then extract r3 else []) = none
    exact reportComparison_none_summary cp rng _
  · show reportComparison cp rng ((extract r0).head?.map calcDerivedMetrics)
      (if cp then extract (.error m3) else []) = none
    have : (if cp then extract (Except.error m3 :
        Except String InsightsPayload) else []) = [] := by cases cp <;> rfl
    rw [this]
    exact reportComparison_none_prev cp rng _
  · show reportByCampaign cp (reportCampaigns nf r1)
        (if cp then extract (.error m4) else []) =
      (reportByCampaign cp (reportCampaigns nf r1)
        (if cp then extract s4 else [])).map (fun q => (q.1, none))
    have h4 : (if cp then extract (Except.error m4 :
        Except String InsightsPayload) else []) = [] := by cases cp <;> rfl
    rw [h4, reportByCampaign_empty, reportByCampaign_fst]

/-- Helper: matching the `^last_(\d+)d$` pattern on a character list of the
    shape last_<digits>d captures the digits' value. -/
theorem lastNdMatch_eval (ds : List Char) (h1 : ds ≠ [])
    (h2 : ds.all Char.isDigit = true) :
    lastNdMatch (['l', 'a', 's', 't', '_'] ++ (ds ++ ['d'])) = some (digitsToNat ds) := by
  rw [lastNdMatch,
    List.take_left' (show (['l', 'a', 's', 't', '_'] : List Char).length = 5 from rfl),
    List.drop_left' (show (['l', 'a', 's', 't', '_'] : List Char).length = 5 from rfl),
    if_pos (by decide : (['l', 'a', 's', 't', '_'] : List Char) = "last_".data)]
  simp [List.dropLast_concat, List.getLast?_concat, h1, h2]

/-- C7: a symbolic spec of the shape last_<digits>d resolves to the inclusive
    window ending yesterday whose length is the digits' value N
    (until = today − 1, since = today − N), and every symbolic string outside
    the fixed vocabulary that does not match the pattern resolves by the same
    rule with N = 7. -/
theorem resolveDateRange_lastNd (today : Day) (ds : List Char)
    (h1 : ds ≠ []) (h2 : ds.all Char.isDigit = true) :
    resolveDateRange today (.sym (String.mk ("last_".data ++ (ds ++ ['d'])))) =
      ⟨today - digitsToNat ds, today - 1⟩ ∧
    ∀ s : String,
      s ∉ (["today", "yesterday", "this_week", "last_week", "this_month",
        "last_month"] : List String) →
      lastNdMatch s.data = none →
      resolveDateRange today (.sym s) = ⟨today - 7, today - 1⟩ := by
  constructor
  · match ds, h1 with
    | c :: t, _ =>
    have hc : c.isDigit = true := by
      rw [List.all_cons, Bool.and_eq_true] at h2
      exact h2.1
    have hdata : (String.mk ("last_".data ++ (c :: t ++ ['d']))).data
        = "last_".data ++ (c :: t ++ ['d']) := rfl
    have n1 : String.mk ("last_".data ++ (c :: t ++ ['d'])) ≠ "today" := by
      intro hEq
      have hd := congrArg String.data hEq
      rw [hdata] at hd
      simp at hd
    have n2 : String.mk ("last_".data ++ (c :: t ++ ['d'])) ≠ "yesterday" := by
      intro hEq
      have hd := congrArg String.data hEq
      rw [hdata] at hd
      simp at hd
    have n3 : String.mk ("last_".data ++ (c :: t ++ ['d'])) ≠ "this_week" := by
      intro hEq
      have hd := congrArg String.data hEq
      rw [hdata] at hd
      simp at hd
    have n4 : String.mk ("last_".data ++ (c :: t ++ ['d'])) ≠ "last_week" := by
      intro hEq
      have hd := congrArg String.data hEq
      rw [hdata] at hd
      simp at hd
      obtain ⟨hcw, -⟩ := hd
      rw [hcw] at hc
      exact absurd hc (by decide)
    have n5 : String.mk ("last_".data ++ (c :: t ++ ['d'])) ≠ "this_month" := by
      intro hEq
      have hd := congrArg String.data hEq
      rw [hdata] at hd
      simp at hd
    have n6 : String.mk ("last_".data ++ (c :: t ++ ['d'])) ≠ "last_month" := by
      intro hEq
      have hd := congrArg String.data hEq
      rw [hdata] at hd
      simp at hd
      obtain ⟨hcw, -⟩ := hd
      rw [hcw] at hc
      exact absurd hc (by decide)
    simp only [resolveDateRange]
    rw [if_neg n1, if_neg n2, if_neg n3, if_neg n4, if_neg n5, if_neg n6,
      lastNdMatch_eval (c :: t) (List.cons_ne_nil c t) h2]
    show DateRange.mk (today - 1 - (digitsToNat (c :: t) : ℤ) + 1) (today - 1) =
      ⟨today - (digitsToNat (c :: t) : ℤ), today - 1⟩
    rw [show today - 1 - (digitsToNat (c :: t) : ℤ) + 1
      = today - (digitsToNat (c :: t) : ℤ) from by ring]
  · intro s hs hnone
    have m1 : s ≠ "today" := fun h => hs (by rw [h]; simp)
    have m2 : s ≠ "yesterday" := fun h => hs (by rw [h]; simp)
    have m3 : s ≠ "this_week" := fun h => hs (by rw [h]; simp)
    have m4 : s ≠ "last_week" := fun h => hs (by rw [h]; simp)
    have m5 : s ≠ "this_month" := fun h => hs (by rw [h]; simp)
    have m6 : s ≠ "last_month" := fun h => hs (by rw [h]; simp)
    simp only [resolveDateRange]
    rw [if_neg m1, if_neg m2, if_neg m3, if_neg m4, if_neg m5, if_neg m6, hnone]
    show DateRange.mk (today - 1 - ((7 : ℕ) : ℤ) + 1) (today - 1) = ⟨today - 7, today - 1⟩
    rw [show today - 1 - ((7 : ℕ) : ℤ) + 1 = today - 7 from by push_cast; ring]

/-- Witness for C7 at last_30d (N = 30) with anchor day 20000, plus the
    fallback at the unrecognized string "oops". -/
theorem resolveDateRange_lastNd_witness :
    resolveDateRange 20000 (.sym (String.mk ("last_".data ++ (['3', '0'] ++ ['d'])))) =
      ⟨20000 - digitsToNat ['3', '0'], 20000 - 1⟩ ∧
    resolveDateRange 20000 (.sym "oops") = ⟨20000 - 7, 20000 - 1⟩ :=
  ⟨(resolveDateRange_lastNd 20000 ['3', '0'] (by decide) (by decide)).1,
   (resolveDateRange_lastNd 20000 ['3', '0'] (by decide) (by decide)).2 "oops"
     (by decide) (by decide)⟩

end MetaAds
